import Mathlib

/-!
# Rakshak.AI backend — verification of the decision core

Shallow embedding of the `/analyze` request handler of the Rakshak.AI
Node.js backend.  Two near-identical variants exist in the repository:

* `src/backend/server.js` — the variant with a deterministic fallback when
  the Gemini call fails (`handleAnalyzeServer` below);
* `src/unnamed/part_000` — the merged variant without a fallback, which
  returns a 500 error on unparseable AI output (`handleAnalyzePart0` below).

JavaScript dynamic values are modelled by `JSValue`; JS numbers are modelled
by `JSNum` (a rational together with NaN, +Infinity and -Infinity — the
floating-point rounding of decimal literals is abstracted to exact rationals,
which is faithful for every comparison against the integer thresholds the
code uses).  `Number()` coercion, the validator, the sanitizer, the JSON
extraction from the AI's raw text, the fallback analysis, the emergency SMS
gate and both request handlers are all translated directly from the source.
-/

/-- A JavaScript number: NaN, the two infinities, or a finite value
(modelled as an exact rational). -/
inductive JSNum where
  | nan : JSNum
  | posInf : JSNum
  | negInf : JSNum
  | fin (q : ℚ) : JSNum
deriving DecidableEq, Repr

/-- JS `Number.isFinite`: true exactly on finite numbers. -/
def JSNum.isFinite : JSNum → Bool
  | .fin _ => true
  | _ => false

/-- A JavaScript runtime value, as far as the `/analyze` handler can
observe one: `undefined`, `null`, booleans, numbers, strings, arrays and
plain objects. -/
inductive JSValue where
  | undefined : JSValue
  | null : JSValue
  | bool (b : Bool) : JSValue
  | num (n : JSNum) : JSValue
  | str (s : String) : JSValue
  | arr (elems : List JSValue) : JSValue
  | obj (fields : List (String × JSValue)) : JSValue

/-- The whitespace characters stripped by JavaScript's `String.prototype.trim`
and by `Number(string)` coercion (WhiteSpace and LineTerminator). -/
def jsWhitespace (c : Char) : Bool :=
  c = ' ' || c = '\t' || c = '\n' || c = '\r' ||
  c = '\x0b' || c = '\x0c' || c = '\u00A0' || c = '\uFEFF'

/-- Strip JS whitespace from both ends of a character list. -/
def trimJsChars (cs : List Char) : List Char :=
  ((cs.dropWhile jsWhitespace).reverse.dropWhile jsWhitespace).reverse

/-- JS `String.prototype.trim`. -/
def jsTrim (s : String) : String :=
  (trimJsChars s.toList).asString

/-- Numeric value of a list of decimal digits. -/
def digitsToNat (ds : List Char) : Nat :=
  ds.foldl (fun a c => a * 10 + (c.toNat - 48)) 0

/-- Split a leading run of decimal digits off a character list. -/
def takeDigits (cs : List Char) : List Char × List Char :=
  (cs.takeWhile Char.isDigit, cs.dropWhile Char.isDigit)

/-- Parse the optional exponent tail of a JS decimal literal
(`e`/`E`, optional sign, digits), requiring full consumption of the input.
Returns the exponent, or `none` if the tail is malformed. -/
def parseExpTail (cs : List Char) : Option Int :=
  match cs with
  | [] => some 0
  | e :: r =>
    if e = 'e' || e = 'E' then
      let (sgn, r2) : Int × List Char :=
        match r with
        | '+' :: t => (1, t)
        | '-' :: t => (-1, t)
        | _ => (1, r)
      let (ds, r3) := takeDigits r2
      if ds.isEmpty || !r3.isEmpty then none
      else some (sgn * (digitsToNat ds : Int))
    else none

/-- Parse an unsigned JS decimal literal (`digits [. digits] [exp]` or
`. digits [exp]`), requiring full consumption. -/
def parseUnsignedDec (cs : List Char) : Option ℚ :=
  let (ip, r1) := takeDigits cs
  match r1 with
  | '.' :: r2 =>
    let (fp, r3) := takeDigits r2
    if ip.isEmpty && fp.isEmpty then none
    else (parseExpTail r3).map (fun e =>
      ((digitsToNat ip : ℚ) + (digitsToNat fp : ℚ) / (10 : ℚ) ^ fp.length)
        * (10 : ℚ) ^ e)
  | _ =>
    if ip.isEmpty then none
    else (parseExpTail r1).map (fun e => (digitsToNat ip : ℚ) * (10 : ℚ) ^ e)

/-- Value of a single digit in radix up to 16, if valid. -/
def radixDigitVal (radix : Nat) (c : Char) : Option Nat :=
  let v : Option Nat :=
    if '0' ≤ c ∧ c ≤ '9' then some (c.toNat - 48)
    else if 'a' ≤ c ∧ c ≤ 'f' then some (c.toNat - 87)
    else if 'A' ≤ c ∧ c ≤ 'F' then some (c.toNat - 55)
    else none
  match v with
  | some n => if n < radix then some n else none
  | none => none

/-- Parse a non-empty run of radix digits, requiring full consumption. -/
def parseRadixDigits (radix : Nat) (cs : List Char) : Option Nat :=
  match cs with
  | [] => none
  | _ =>
    cs.foldl (fun acc c =>
      match acc, radixDigitVal radix c with
      | some a, some d => some (a * radix + d)
      | _, _ => none) (some 0)

/-- The unsigned part of `Number(string)`: a decimal literal or `Infinity`. -/
def unsignedStrNum (cs : List Char) (neg : Bool) : JSNum :=
  if cs = "Infinity".toList then (if neg then .negInf else .posInf)
  else
    match parseUnsignedDec cs with
    | some q => .fin (if neg then -q else q)
    | none => .nan

/-- JS `Number(string)` — ToNumber on a string: trims whitespace, maps the
empty string to `0`, accepts signed decimal literals, `Infinity`, and the
unsigned `0x`/`0o`/`0b` radix literals; everything else is NaN. -/
def strToNumber (s : String) : JSNum :=
  let cs := trimJsChars s.toList
  match cs with
  | [] => .fin 0
  | '0' :: c :: rest =>
    if c = 'x' || c = 'X' then
      match parseRadixDigits 16 rest with
      | some n => .fin (n : ℚ)
      | none => .nan
    else if c = 'o' || c = 'O' then
      match parseRadixDigits 8 rest with
      | some n => .fin (n : ℚ)
      | none => .nan
    else if c = 'b' || c = 'B' then
      match parseRadixDigits 2 rest with
      | some n => .fin (n : ℚ)
      | none => .nan
    else unsignedStrNum cs false
  | '+' :: r => unsignedStrNum r false
  | '-' :: r => unsignedStrNum r true
  | _ => unsignedStrNum cs false

mutual

/-- JS `Number(v)` coercion.  `undefined ↦ NaN`, `null ↦ 0`,
booleans to 0/1, strings via the numeric-literal grammar, arrays via their
`toString` join (modelled structurally: `[] ↦ 0`, a single element coerces
through its string form, two or more elements always contain a `,` and give
NaN), plain objects give NaN (`"[object Object]"` is not numeric). -/
def toNumber : JSValue → JSNum
  | .undefined => .nan
  | .null => .fin 0
  | .bool true => .fin 1
  | .bool false => .fin 0
  | .num n => n
  | .str s => strToNumber s
  | .arr xs => arrToNumber xs
  | .obj _ => .nan

/-- JS `Number(array)`: empty array is `0` (joins to `""`); a singleton coerces
through the string form of its element; with two or more elements the join
contains a comma and is never numeric. -/
def arrToNumber : List JSValue → JSNum
  | [] => .fin 0
  | [v] => elemToNumber v
  | _ :: _ :: _ => .nan

/-- Coercion of a single array element through `String(element)` then
`Number`: `undefined` and `null` join as the empty string (`0`); booleans
stringify to `"true"`/`"false"` (NaN); a number round-trips through its
decimal printing; strings and nested arrays recurse; objects stringify to
`"[object Object]"` (NaN). -/
def elemToNumber : JSValue → JSNum
  | .undefined => .fin 0
  | .null => .fin 0
  | .bool _ => .nan
  | .num n => n
  | .str s => strToNumber s
  | .arr xs => arrToNumber xs
  | .obj _ => .nan

end

/-- Predicate for `sanitizeString`: drop every newline, carriage-return,
angle-bracket, backtick and double-quote character, then `slice(0, maxLength)`
with the default `maxLength = 100`.
Source: `str.replace(/[\n\r<>\x60"]/g, "").slice(0, maxLength)`. -/
def sanitizedChar (c : Char) : Bool :=
  !(c = '\n' || c = '\r' || c = '<' || c = '>' || c = '\x60' || c = '\x22')

/-- The sanitizer applied to a string value (callers always pass a string;
the `typeof str !== "string"` guard returns `""` and is modelled at the
call sites, which only reach the sanitizer with a string). -/
def sanitizeString (s : String) (maxLength : Nat := 100) : String :=
  ((s.toList.filter sanitizedChar).take maxLength).asString

/-- The raw, untyped `/analyze` request body fields as destructured by
`let { impact, speed, tilt, location } = req.body` (a missing property
destructures to `undefined`). -/
structure Payload where
  impact : JSValue
  speed : JSValue
  tilt : JSValue
  location : JSValue

/-- The validated reading that reaches the decision logic:
`impactVal`, `speedVal`, `tiltVal` after `Number()` coercion, and
`safeLocation` after sanitization. -/
structure Reading where
  impactVal : ℚ
  speedVal : ℚ
  tiltVal : ℚ
  safeLocation : String
deriving DecidableEq, Repr

/-- Whether a JS value is exactly `undefined`. -/
def JSValue.isUndefined : JSValue → Bool
  | .undefined => true
  | _ => false

/-- The check `typeof location === "string" && location.trim().length > 0`: the
location field holds a string that is non-empty after trimming. -/
def locationOk : JSValue → Bool
  | .str s => !(jsTrim s).isEmpty
  | _ => false

/-- The validation prefix of the `/analyze` handler (identical in both
variants): reject with 400 "Invalid sensor data" when a sensor field is
`undefined` or the location is not a non-empty-after-trim string; then
coerce the three sensor fields with `Number()` and reject with 400
"Sensor values must be numbers" unless all three are finite; otherwise
build the Reading with the sanitized location. -/
def validate (p : Payload) : Except String Reading :=
  match p.location with
  | .str loc =>
    if p.impact.isUndefined || p.speed.isUndefined || p.tilt.isUndefined ||
       (jsTrim loc).isEmpty then
      .error "Invalid sensor data"
    else
      match toNumber p.impact, toNumber p.speed, toNumber p.tilt with
      | .fin i, .fin s, .fin t => .ok ⟨i, s, t, sanitizeString loc⟩
      | _, _, _ => .error "Sensor values must be numbers"
  | _ => .error "Invalid sensor data"

/-- A parsed JSON value, the result of `JSON.parse`. -/
inductive JValue where
  | jnull : JValue
  | jbool (b : Bool) : JValue
  | jnum (q : ℚ) : JValue
  | jstr (s : String) : JValue
  | jarr (elems : List JValue) : JValue
  | jobj (fields : List (String × JValue)) : JValue

/-- JSON insignificant whitespace. -/
def jsonWs (c : Char) : Bool :=
  c = ' ' || c = '\t' || c = '\n' || c = '\r'

/-- Skip JSON whitespace. -/
def skipJsonWs (cs : List Char) : List Char :=
  cs.dropWhile jsonWs

/-- Parse the body of a JSON string after its opening quote, handling the
JSON escapes; returns the decoded characters and the remaining input.
Fuel-indexed (one character is consumed per step). -/
def parseJStringBody : Nat → List Char → Option (List Char × List Char)
  | 0, _ => none
  | fuel + 1, cs =>
    match cs with
    | [] => none
    | c :: rest =>
      if c = '\x22' then some ([], rest)
      else if c = '\\' then
        match rest with
        | [] => none
        | e :: rest2 =>
          if e = 'u' then
            match rest2 with
            | h1 :: h2 :: h3 :: h4 :: rest3 =>
              match radixDigitVal 16 h1, radixDigitVal 16 h2,
                    radixDigitVal 16 h3, radixDigitVal 16 h4 with
              | some a, some b, some c2, some d =>
                (parseJStringBody fuel rest3).map (fun pr =>
                  (Char.ofNat (a * 4096 + b * 256 + c2 * 16 + d) :: pr.1, pr.2))
              | _, _, _, _ => none
            | _ => none
          else
            match
              (if e = '\x22' then some '\x22'
               else if e = '\\' then some '\\'
               else if e = '/' then some '/'
               else if e = 'b' then some '\x08'
               else if e = 'f' then some '\x0c'
               else if e = 'n' then some '\n'
               else if e = 'r' then some '\r'
               else if e = 't' then some '\t'
               else none) with
            | some d => (parseJStringBody fuel rest2).map (fun pr => (d :: pr.1, pr.2))
            | none => none
      else if c.toNat < 32 then none
      else (parseJStringBody fuel rest).map (fun pr => (c :: pr.1, pr.2))

/-- Parse the optional fraction part of a JSON number. -/
def parseJFrac (cs : List Char) : Option (ℚ × List Char) :=
  match cs with
  | '.' :: r =>
    let (fp, r2) := takeDigits r
    if fp.isEmpty then none
    else some ((digitsToNat fp : ℚ) / (10 : ℚ) ^ fp.length, r2)
  | _ => some (0, cs)

/-- Parse the optional exponent part of a JSON number. -/
def parseJExp (cs : List Char) : Option (Int × List Char) :=
  match cs with
  | [] => some (0, [])
  | e :: r =>
    if e = 'e' || e = 'E' then
      let (sgn, r2) : Int × List Char :=
        match r with
        | '+' :: t => (1, t)
        | '-' :: t => (-1, t)
        | _ => (1, r)
      let (ds, r3) := takeDigits r2
      if ds.isEmpty then none
      else some (sgn * (digitsToNat ds : Int), r3)
    else some (0, cs)

/-- Parse a JSON number (`-? int frac? exp?`, no leading zeros). -/
def parseJNumber (cs : List Char) : Option (ℚ × List Char) := do
  let (neg, cs1) : Bool × List Char :=
    match cs with
    | '-' :: t => (true, t)
    | _ => (false, cs)
  let (ip, r1) := takeDigits cs1
  if ip.isEmpty then none
  else if 1 < ip.length ∧ ip.head? = some '0' then none
  else do
    let (f, r2) ← parseJFrac r1
    let (e, r3) ← parseJExp r2
    let m := ((digitsToNat ip : ℚ) + f) * (10 : ℚ) ^ e
    some (if neg then -m else m, r3)

mutual

/-- Parse one JSON value (fuel-indexed recursive descent). -/
def parseJValue : Nat → List Char → Option (JValue × List Char)
  | 0, _ => none
  | fuel + 1, cs =>
    match skipJsonWs cs with
    | [] => none
    | c :: rest =>
      if c = '\x7b' then
        match skipJsonWs rest with
        | '\x7d' :: r2 => some (.jobj [], r2)
        | r2 => (parseJMembers fuel r2).map (fun pr => (.jobj pr.1, pr.2))
      else if c = '[' then
        match skipJsonWs rest with
        | ']' :: r2 => some (.jarr [], r2)
        | r2 => (parseJItems fuel r2).map (fun pr => (.jarr pr.1, pr.2))
      else if c = '\x22' then
        (parseJStringBody (rest.length + 1) rest).map (fun pr =>
          (.jstr pr.1.asString, pr.2))
      else
        match c :: rest with
        | 't' :: 'r' :: 'u' :: 'e' :: r => some (.jbool true, r)
        | 'f' :: 'a' :: 'l' :: 's' :: 'e' :: r => some (.jbool false, r)
        | 'n' :: 'u' :: 'l' :: 'l' :: r => some (.jnull, r)
        | cs2 => (parseJNumber cs2).map (fun pr => (.jnum pr.1, pr.2))

/-- Parse the members of a JSON object after its `\x7b` (at least one pair),
up to and including the closing `\x7d`. -/
def parseJMembers : Nat → List Char → Option (List (String × JValue) × List Char)
  | 0, _ => none
  | fuel + 1, cs =>
    match skipJsonWs cs with
    | '\x22' :: r1 => do
      let (k, r2) ← parseJStringBody (r1.length + 1) r1
      match skipJsonWs r2 with
      | ':' :: r3 => do
        let (v, r4) ← parseJValue fuel r3
        match skipJsonWs r4 with
        | ',' :: r5 =>
          (parseJMembers fuel r5).map (fun pr =>
            ((k.asString, v) :: pr.1, pr.2))
        | '\x7d' :: r5 => some ([(k.asString, v)], r5)
        | _ => none
      | _ => none
    | _ => none

/-- Parse the items of a JSON array after its `[` (at least one item),
up to and including the closing `]`. -/
def parseJItems : Nat → List Char → Option (List JValue × List Char)
  | 0, _ => none
  | fuel + 1, cs => do
    let (v, r1) ← parseJValue fuel cs
    match skipJsonWs r1 with
    | ',' :: r2 => (parseJItems fuel r2).map (fun pr => (v :: pr.1, pr.2))
    | ']' :: r2 => some ([v], r2)
    | _ => none

end

/-- JS `JSON.parse` on a character list: one value, then only whitespace. -/
def jsonParse (cs : List Char) : Option JValue :=
  match parseJValue (2 * cs.length + 2) cs with
  | some (v, rest) => if (skipJsonWs rest).isEmpty then some v else none
  | none => none

/-- Source `extractJSON`: match `/\x7b[\s\S]*\x7d/` against the raw
text — i.e. the slice from the first `\x7b` to the last `\x7d` (the regex is
greedy) — and `JSON.parse` the match; `none` models the thrown
`"No JSON found"` / `JSON.parse` exceptions. -/
def extractJSON (text : String) : Option JValue :=
  let after := text.toList.dropWhile (fun c => !(c = '\x7b'))
  let upto := (after.reverse.dropWhile (fun c => !(c = '\x7d'))).reverse
  match upto with
  | [] => none
  | _ => jsonParse upto

mutual

/-- View a parsed JSON value as a JS runtime value. -/
def jvalToJS : JValue → JSValue
  | .jnull => .null
  | .jbool b => .bool b
  | .jnum q => .num (.fin q)
  | .jstr s => .str s
  | .jarr xs => .arr (jvalListToJS xs)
  | .jobj fs => .obj (jfieldsToJS fs)

/-- Elementwise conversion of a JSON array. -/
def jvalListToJS : List JValue → List JSValue
  | [] => []
  | v :: vs => jvalToJS v :: jvalListToJS vs

/-- Fieldwise conversion of a JSON object. -/
def jfieldsToJS : List (String × JValue) → List (String × JSValue)
  | [] => []
  | (k, v) :: fs => (k, jvalToJS v) :: jfieldsToJS fs

end

/-- The `analysis` object consumed by the emergency gate and the response:
its four properties as JS values (`undefined` when the property is absent). -/
structure Analysis where
  is_accident : JSValue
  severity : JSValue
  summary : JSValue
  action : JSValue

/-- JS property read on an object field list: later assignments win
(`JSON.parse` keeps the last duplicate key). -/
def lookupField (fields : List (String × JSValue)) (name : String) : JSValue :=
  match fields.reverse.find? (fun kv => kv.1 == name) with
  | some kv => kv.2
  | none => .undefined

/-- Read the four analysis properties off a parsed JS value.  A successful
`extractJSON` always yields an object (the match starts at `\x7b`), so the
non-object branch (property access on a primitive, which yields `undefined`
in JS) is unreachable in the handler flows. -/
def analysisOf : JSValue → Analysis
  | .obj fields =>
    ⟨lookupField fields "is_accident", lookupField fields "severity",
     lookupField fields "summary", lookupField fields "action"⟩
  | _ => ⟨.undefined, .undefined, .undefined, .undefined⟩

/-- The outcome of the external reasoning call in `server.js`/`part_000`:
either `model.generateContent` (or `.response.text()`) threw, or it
produced raw text. -/
inductive AIResult where
  | failure : AIResult
  | text (raw : String) : AIResult

/-- The primary (Gemini) tier as the handlers consume it: `none` when the
call failed or `extractJSON` threw, otherwise the analysis object parsed
from the raw text. -/
def primaryAnalysis (ai : AIResult) : Option Analysis :=
  match ai with
  | .failure => none
  | .text raw => (extractJSON raw).map (fun v => analysisOf (jvalToJS v))

/-- The fallback analysis of `server.js` (the `catch (aiError)` branch):
`is_accident = impactVal > 10 && speedVal > 30`,
`severity = impactVal > 15 ? "CRITICAL" : "MEDIUM"`, fixed summary, and
`action` always `"Dispatch Ambulance"`. -/
def fallbackAnalysis (impactVal speedVal : ℚ) : Analysis :=
  { is_accident := .bool (decide (impactVal > 10) && decide (speedVal > 30))
    severity := .str (if impactVal > 15 then "CRITICAL" else "MEDIUM")
    summary := .str "Fallback rule-based accident detection"
    action := .str "Dispatch Ambulance" }

/-- The Gemini-analysis block of `server.js`: use the parsed primary
response when the try-block succeeded, otherwise the fallback analysis. -/
def analyzeServer (r : Reading) (ai : AIResult) : Analysis :=
  match primaryAnalysis ai with
  | some a => a
  | none => fallbackAnalysis r.impactVal r.speedVal

/-- The check `analysis.is_accident === true` — strict equality against `true`. -/
def isAccidentTrue : JSValue → Bool
  | .bool true => true
  | _ => false

/-- The check `analysis.severity === "CRITICAL" || analysis.severity === "MEDIUM"`. -/
def severityMedOrCrit : JSValue → Bool
  | .str s => s == "CRITICAL" || s == "MEDIUM"
  | _ => false

/-- The emergency-action gate, identical in both variants. -/
def emergencyGate (a : Analysis) : Bool :=
  isAccidentTrue a.is_accident && severityMedOrCrit a.severity

/-- The outcome of the Twilio `messages.create` call. -/
inductive SmsOutcome where
  | sent : SmsOutcome
  | failed (message : String) : SmsOutcome

/-- The Twilio `messages.create` call: succeeds or throws. -/
def twilioCreate : SmsOutcome → Except String Unit
  | .sent => .ok ()
  | .failed e => .error e

/-- Source `sendEmergencySMS`: awaits the Twilio call inside `try`; the `catch`
logs the error and swallows it, so the function itself never throws. -/
def sendEmergencySMS (o : SmsOutcome) : Except String Unit :=
  match twilioCreate o with
  | .ok _ => .ok ()
  | .error _ => .ok ()

/-- The `/analyze` response, abstracted from HTTP:
`ok` is the 200 JSON body carrying the analysis (`{ analysis }` in
`server.js`, `{ success, data }` in `part_000`), `clientError` a 400,
`serverError` a 500. -/
inductive AnalyzeResponse where
  | ok (analysis : Analysis) : AnalyzeResponse
  | clientError (message : String) : AnalyzeResponse
  | serverError (message : String) : AnalyzeResponse

/-- The full `/analyze` handler of `src/backend/server.js`, as a function
of the raw payload, the reasoning-call outcome and the Twilio-call outcome.
Returns the response together with whether an SMS send was attempted.
A `sendEmergencySMS` error would hit the outer catch (500), but
`sendEmergencySMS` swallows its error, so that branch is dead. -/
def handleAnalyzeServer (p : Payload) (ai : AIResult) (sms : SmsOutcome) :
    AnalyzeResponse × Bool :=
  match validate p with
  | .error msg => (.clientError msg, false)
  | .ok r =>
    let analysis := analyzeServer r ai
    if emergencyGate analysis then
      match sendEmergencySMS sms with
      | .ok _ => (.ok analysis, true)
      | .error _ => (.serverError "Internal server error", true)
    else (.ok analysis, false)

/-- The full `/analyze` handler of `src/unnamed/part_000`: same validation
and gate, but no fallback — a failed reasoning call hits the outer catch
(500 "Internal analysis failure") and unparseable output returns
500 "Malformed AI response". -/
def handleAnalyzePart0 (p : Payload) (ai : AIResult) (sms : SmsOutcome) :
    AnalyzeResponse × Bool :=
  match validate p with
  | .error msg => (.clientError msg, false)
  | .ok _ =>
    match ai with
    | .failure => (.serverError "Internal analysis failure", false)
    | .text raw =>
      match extractJSON raw with
      | none => (.serverError "Malformed AI response", false)
      | some v =>
        let analysis := analysisOf (jvalToJS v)
        if emergencyGate analysis then
          match sendEmergencySMS sms with
          | .ok _ => (.ok analysis, true)
          | .error _ => (.serverError "Internal analysis failure", true)
        else (.ok analysis, false)

/-- Modelled from the spec: the fixed ordered rule table of spec section
4.2, evaluated top-to-bottom with first match winning.  This definition
follows the spec's words (it appears nowhere in the source) and exists only
to be compared against the source's `fallbackAnalysis`. -/
def specFallbackTable (impact speed tilt : ℚ) : Analysis :=
  if impact < 2 ∧ speed < 5 then
    ⟨.bool false, .str "LOW", .str "minor vibration", .str "Ignore"⟩
  else if 2 ≤ impact ∧ impact < 8 ∧ speed > 20 ∧ tilt < 20 then
    ⟨.bool false, .str "LOW", .str "pothole/hard braking", .str "LogEvent"⟩
  else if impact ≥ 8 ∧ speed ≥ 40 then
    ⟨.bool true, .str "MEDIUM", .str "possible collision", .str "NotifyContact"⟩
  else if impact ≥ 12 ∧ speed ≥ 60 ∧ tilt ≥ 45 then
    ⟨.bool true, .str "CRITICAL", .str "severe accident", .str "DispatchAmbulance"⟩
  else
    ⟨.bool false, .str "LOW", .str "unclear sensor pattern", .str "LogEvent"⟩

/-! ## Helper lemmas -/

/-- The function `sendEmergencySMS` never propagates an error: its `catch` swallows every
Twilio failure. -/
theorem sendEmergencySMS_ok (o : SmsOutcome) : sendEmergencySMS o = .ok () := by
  cases o <;> rfl

/-- On a validated reading, the `server.js` handler always answers 200 with
the analysis, and attempts an SMS exactly when the emergency gate fires. -/
theorem handleAnalyzeServer_ok (p : Payload) (r : Reading) (ai : AIResult)
    (sms : SmsOutcome) (h : validate p = .ok r) :
    handleAnalyzeServer p ai sms =
      (.ok (analyzeServer r ai), emergencyGate (analyzeServer r ai)) := by
  unfold handleAnalyzeServer
  rw [h, sendEmergencySMS_ok sms]
  by_cases hg : emergencyGate (analyzeServer r ai) <;> simp [hg]

/-- Validation succeeds on any payload whose sensor fields are not
`undefined` and coerce to finite numbers, with a string location that is
non-empty after trimming; the reading carries the coerced values. -/
theorem validate_str_ok (pi ps pt : JSValue) (loc : String) (qi qs qt : ℚ)
    (h1 : pi.isUndefined = false) (h2 : ps.isUndefined = false) (h3 : pt.isUndefined = false)
    (h4 : (jsTrim loc).isEmpty = false)
    (h5 : toNumber pi = .fin qi) (h6 : toNumber ps = .fin qs)
    (h7 : toNumber pt = .fin qt) :
    validate ⟨pi, ps, pt, .str loc⟩ = .ok ⟨qi, qs, qt, sanitizeString loc⟩ := by
  simp [validate, h1, h2, h3, h4, h5, h6, h7]

/-! ## Claim theorems -/

/-- C8.  The location sanitizer is idempotent, its output never exceeds 100
characters, and every output character survives the strip filter (so no
newline, carriage-return, angle bracket, backtick or double quote remains). -/
theorem sanitize_idempotent_bounded (s : String) :
    sanitizeString (sanitizeString s) = sanitizeString s ∧
    (sanitizeString s).length ≤ 100 ∧
    (sanitizeString s).toList.all sanitizedChar = true := by
  have hmem : ∀ c ∈ (sanitizeString s).toList, sanitizedChar c = true := by
    intro c hc
    have hc' : c ∈ s.toList.filter sanitizedChar :=
      List.take_subset 100 _ hc
    exact (List.mem_filter.mp hc').2
  refine ⟨?_, ?_, List.all_eq_true.mpr hmem⟩
  · have hlen : (List.take 100 (s.toList.filter sanitizedChar)).length ≤ 100 := by
      rw [List.length_take]
      exact min_le_left _ _
    have hdef : sanitizeString (sanitizeString s) =
        (((List.take 100 (s.toList.filter sanitizedChar)).filter
          sanitizedChar).take 100).asString := rfl
    have hmem' : ∀ c ∈ List.take 100 (List.filter sanitizedChar s.toList),
        sanitizedChar c = true := hmem
    rw [hdef, List.filter_eq_self.mpr hmem', List.take_of_length_le hlen]
    rfl
  · have hdef : (sanitizeString s).length =
        (List.take 100 (s.toList.filter sanitizedChar)).length := rfl
    rw [hdef, List.length_take]
    exact min_le_left _ _

/-- C6.  A failed notification send is swallowed: `sendEmergencySMS` always
returns success, and neither handler's response (nor its attempted flag)
depends on the outcome of the Twilio call. -/
theorem notification_failure_swallowed (p : Payload) (ai : AIResult)
    (o o2 : SmsOutcome) :
    sendEmergencySMS o = .ok () ∧
    handleAnalyzeServer p ai o = handleAnalyzeServer p ai o2 ∧
    handleAnalyzePart0 p ai o = handleAnalyzePart0 p ai o2 := by
  cases o <;> cases o2 <;> exact ⟨rfl, rfl, rfl⟩

/-- C1 counterexample.  At the reading `impact = 1, speed = 2, tilt = 0`
(location "Home"), forcing the primary tier unavailable produces the
source's fallback analysis, whose severity is `"MEDIUM"` and whose action
is `"Dispatch Ambulance"`, while the spec's section-4.2 rule table gives
severity `"LOW"` and action `"Ignore"` (rule 1, minor vibration) — the
fallback verdict does not match the rule table. -/
theorem fallback_table_counterexample :
    analyzeServer ⟨1, 2, 0, "Home"⟩ .failure = fallbackAnalysis 1 2 ∧
    (fallbackAnalysis 1 2).severity = JSValue.str "MEDIUM" ∧
    (fallbackAnalysis 1 2).action = JSValue.str "Dispatch Ambulance" ∧
    (specFallbackTable 1 2 0).severity = JSValue.str "LOW" ∧
    (specFallbackTable 1 2 0).action = JSValue.str "Ignore" ∧
    (fallbackAnalysis 1 2).severity ≠ (specFallbackTable 1 2 0).severity := by
  refine ⟨rfl, ?_, rfl, ?_, ?_, ?_⟩
  · show JSValue.str (if (1 : ℚ) > 15 then "CRITICAL" else "MEDIUM") = _
    norm_num
  · simp [specFallbackTable]
    norm_num
  · simp [specFallbackTable]
    norm_num
  · simp [fallbackAnalysis, specFallbackTable]
    norm_num
    decide

/-- C1 amended.  When the primary tier is unavailable the verdict is the
source's two-threshold fallback, not the spec's rule table:
`isAccident` is true exactly when `impact > 10` and `speed > 30`, severity
is `"CRITICAL"` exactly when `impact > 15` and `"MEDIUM"` otherwise, the
summary is the fixed fallback text, and the action is always
`"Dispatch Ambulance"` (the tilt and the location play no role). -/
theorem fallback_rule_amended (r : Reading) :
    analyzeServer r .failure = fallbackAnalysis r.impactVal r.speedVal ∧
    ((fallbackAnalysis r.impactVal r.speedVal).is_accident = JSValue.bool true ↔
      (10 < r.impactVal ∧ 30 < r.speedVal)) ∧
    ((fallbackAnalysis r.impactVal r.speedVal).severity = JSValue.str "CRITICAL" ↔
      15 < r.impactVal) ∧
    ((fallbackAnalysis r.impactVal r.speedVal).severity = JSValue.str "MEDIUM" ↔
      ¬ 15 < r.impactVal) ∧
    (fallbackAnalysis r.impactVal r.speedVal).summary =
      JSValue.str "Fallback rule-based accident detection" ∧
    (fallbackAnalysis r.impactVal r.speedVal).action =
      JSValue.str "Dispatch Ambulance" := by
  refine ⟨rfl, ?_, ?_, ?_, rfl, rfl⟩
  · simp [fallbackAnalysis]
  · by_cases h : (15 : ℚ) < r.impactVal <;> simp [fallbackAnalysis, h]
  · by_cases h : (15 : ℚ) < r.impactVal <;> simp [fallbackAnalysis, h]

/-- C3 counterexample.  The reading `impact = 20, speed = 0` (a dropped
device) makes the fallback produce `isAccident = false` with severity
`"CRITICAL"` and action `"Dispatch Ambulance"`, violating both claimed
invariants (`severity = CRITICAL ⇒ isAccident` and
`¬isAccident ⇒ action ∈ {Ignore, LogEvent}`). -/
theorem verdict_invariant_counterexample :
    analyzeServer ⟨20, 0, 0, "Home"⟩ .failure = fallbackAnalysis 20 0 ∧
    (fallbackAnalysis 20 0).is_accident = JSValue.bool false ∧
    (fallbackAnalysis 20 0).severity = JSValue.str "CRITICAL" ∧
    (fallbackAnalysis 20 0).action = JSValue.str "Dispatch Ambulance" := by
  refine ⟨rfl, ?_, ?_, rfl⟩
  · show JSValue.bool (decide ((20 : ℚ) > 10) && decide ((0 : ℚ) > 30)) = _
    norm_num
  · show JSValue.str (if (20 : ℚ) > 15 then "CRITICAL" else "MEDIUM") = _
    norm_num

/-- C3 amended.  The claimed Verdict invariants do not hold: every
fallback verdict has severity `"MEDIUM"` or `"CRITICAL"` and action
`"Dispatch Ambulance"`, whatever its `isAccident` flag; and the primary
tier's verdict is whatever JSON the reasoning service returned, unchecked.
What does hold: a verdict that passes the emergency gate always has
`isAccident` strictly `true` and severity `"MEDIUM"` or `"CRITICAL"`. -/
theorem verdict_invariant_amended (i s : ℚ) (a : Analysis) :
    ((fallbackAnalysis i s).severity = JSValue.str "MEDIUM" ∨
     (fallbackAnalysis i s).severity = JSValue.str "CRITICAL") ∧
    (fallbackAnalysis i s).action = JSValue.str "Dispatch Ambulance" ∧
    (emergencyGate a = true →
      a.is_accident = JSValue.bool true ∧
      (a.severity = JSValue.str "MEDIUM" ∨ a.severity = JSValue.str "CRITICAL")) := by
  refine ⟨?_, rfl, ?_⟩
  · by_cases h : (15 : ℚ) < i <;> simp [fallbackAnalysis, h]
  · intro hg
    unfold emergencyGate isAccidentTrue severityMedOrCrit at hg
    constructor
    · match ha : a.is_accident with
      | .bool true => rfl
      | .undefined | .null | .bool false | .num _ | .str _ | .arr _ | .obj _ =>
        rw [ha] at hg; simp at hg
    · match hs : a.severity with
      | .str s2 =>
        rw [hs] at hg
        simp only [Bool.and_eq_true, Bool.or_eq_true, beq_iff_eq] at hg
        rcases hg.2 with h2 | h2
        · exact Or.inr (by rw [h2])
        · exact Or.inl (by rw [h2])
      | .undefined | .null | .bool _ | .num _ | .arr _ | .obj _ =>
        rw [hs] at hg; simp at hg

/-- Witness for C3-amended: the gate-true implication discharged on a
concrete gate-passing verdict. -/
theorem verdict_invariant_amended_witness :
    (fallbackAnalysis 12 50).is_accident = JSValue.bool true ∧
    ((fallbackAnalysis 12 50).severity = JSValue.str "MEDIUM" ∨
     (fallbackAnalysis 12 50).severity = JSValue.str "CRITICAL") :=
  (verdict_invariant_amended 12 50 (fallbackAnalysis 12 50)).2.2 rfl

/-- The emergency gate fires exactly on a strict-boolean-true `is_accident`
together with a severity string `"MEDIUM"` or `"CRITICAL"`. -/
theorem emergencyGate_true_iff (a : Analysis) :
    emergencyGate a = true ↔
      (a.is_accident = JSValue.bool true ∧
        (a.severity = JSValue.str "MEDIUM" ∨ a.severity = JSValue.str "CRITICAL")) := by
  unfold emergencyGate isAccidentTrue severityMedOrCrit
  constructor
  · intro hg
    constructor
    · match ha : a.is_accident with
      | .bool true => rfl
      | .undefined | .null | .bool false | .num _ | .str _ | .arr _ | .obj _ =>
        rw [ha] at hg; simp at hg
    · match hs : a.severity with
      | .str s2 =>
        rw [hs] at hg
        simp only [Bool.and_eq_true, Bool.or_eq_true, beq_iff_eq] at hg
        rcases hg.2 with h2 | h2
        · exact Or.inr (by rw [h2])
        · exact Or.inl (by rw [h2])
      | .undefined | .null | .bool _ | .num _ | .arr _ | .obj _ =>
        rw [hs] at hg; simp at hg
  · rintro ⟨h1, h2⟩
    rw [h1]
    rcases h2 with h2 | h2 <;> rw [h2] <;> simp

/-- C4.  An SMS send is attempted exactly when the verdict's `is_accident`
is strictly `true` and its severity is `"MEDIUM"` or `"CRITICAL"`: the gate
is equivalent to that condition for every analysis object, and on a
validated reading the handler's attempted flag equals the gate on the
verdict it produced (so a LOW severity or a non-`true` `is_accident` never
triggers a send). -/
theorem notification_gating (a : Analysis) (p : Payload) (r : Reading)
    (ai : AIResult) (sms : SmsOutcome) (h : validate p = .ok r) :
    (emergencyGate a = true ↔
      (a.is_accident = JSValue.bool true ∧
        (a.severity = JSValue.str "MEDIUM" ∨ a.severity = JSValue.str "CRITICAL"))) ∧
    (handleAnalyzeServer p ai sms).2 = emergencyGate (analyzeServer r ai) := by
  refine ⟨emergencyGate_true_iff a, ?_⟩
  rw [handleAnalyzeServer_ok p r ai sms h]

/-- Witness for C4 at a concrete validated reading. -/
theorem notification_gating_witness :
    validate ⟨.num (.fin 10), .num (.fin 50), .num (.fin 10), .str "City Rd"⟩ =
      .ok ⟨10, 50, 10, "City Rd"⟩ ∧
    ((emergencyGate (fallbackAnalysis 12 50) = true ↔
       ((fallbackAnalysis 12 50).is_accident = JSValue.bool true ∧
         ((fallbackAnalysis 12 50).severity = JSValue.str "MEDIUM" ∨
          (fallbackAnalysis 12 50).severity = JSValue.str "CRITICAL"))) ∧
     (handleAnalyzeServer ⟨.num (.fin 10), .num (.fin 50), .num (.fin 10),
        .str "City Rd"⟩ .failure .sent).2 =
       emergencyGate (analyzeServer ⟨10, 50, 10, "City Rd"⟩ .failure)) := by
  have hv : validate ⟨.num (.fin 10), .num (.fin 50), .num (.fin 10),
      .str "City Rd"⟩ = .ok ⟨10, 50, 10, "City Rd"⟩ := rfl
  exact ⟨hv, notification_gating (fallbackAnalysis 12 50) _ _ .failure .sent hv⟩

/-- C2 counterexample.  In the `part_000` variant a validated reading whose
reasoning response contains no JSON yields a 500 error response, not a
fallback verdict: the claim fails for that variant. -/
theorem totality_counterexample :
    handleAnalyzePart0
      ⟨.num (.fin 10), .num (.fin 50), .num (.fin 10), .str "City Rd"⟩
      (.text "The model is overloaded, please retry later") .sent =
      (.serverError "Malformed AI response", false) := rfl

/-- C2 amended.  Only the `server.js` variant is total: on every validated
reading it answers 200 with a verdict for every reasoning outcome
(failure, unparseable text, or parseable JSON); the `part_000` variant
instead surfaces a server error when the reasoning call fails or its
output holds no parseable JSON. -/
theorem totality_amended (p : Payload) (r : Reading) (ai : AIResult)
    (sms : SmsOutcome) (h : validate p = .ok r) :
    (handleAnalyzeServer p ai sms).1 = .ok (analyzeServer r ai) := by
  rw [handleAnalyzeServer_ok p r ai sms h]

/-- Witness for C2-amended at a concrete reading with a failed primary tier
and a failing Twilio call. -/
theorem totality_amended_witness :
    validate ⟨.num (.fin 1), .num (.fin 2), .num (.fin 0), .str "Home"⟩ =
      .ok ⟨1, 2, 0, "Home"⟩ ∧
    (handleAnalyzeServer ⟨.num (.fin 1), .num (.fin 2), .num (.fin 0),
        .str "Home"⟩ .failure (.failed "gateway down")).1 =
      .ok (analyzeServer ⟨1, 2, 0, "Home"⟩ .failure) := by
  have hv : validate ⟨.num (.fin 1), .num (.fin 2), .num (.fin 0),
      .str "Home"⟩ = .ok ⟨1, 2, 0, "Home"⟩ := rfl
  exact ⟨hv, totality_amended _ _ .failure (.failed "gateway down") hv⟩

/-- C5 counterexample.  The raw response `\x7b"severity": "BANANA"\x7d` has an
out-of-range severity, no `is_accident` at all (hence not a strict
boolean) and is missing every other required field, yet it parses and is
used as the verdict unchanged — the fallback is not triggered. -/
theorem schema_unchecked_counterexample :
    primaryAnalysis (.text "\x7b\"severity\": \"BANANA\"\x7d") =
      some ⟨.undefined, .str "BANANA", .undefined, .undefined⟩ ∧
    analyzeServer ⟨1, 2, 0, "Home"⟩ (.text "\x7b\"severity\": \"BANANA\"\x7d") =
      ⟨.undefined, .str "BANANA", .undefined, .undefined⟩ ∧
    (analyzeServer ⟨1, 2, 0, "Home"⟩
        (.text "\x7b\"severity\": \"BANANA\"\x7d")).severity ≠
      (fallbackAnalysis 1 2).severity := by
  refine ⟨rfl, rfl, ?_⟩
  show JSValue.str "BANANA" ≠ _
  simp [fallbackAnalysis]

/-- C5 amended.  The handler performs no schema validation of the primary
response: the fallback is triggered only when the reasoning call fails or
its raw text has no parseable `\x7b...\x7d` region, and every successfully
parsed response object is used as the verdict as-is, whatever its fields
hold or miss. -/
theorem malformed_response_amended (r : Reading) (raw : String) (v : JValue)
    (h : extractJSON raw = some v) :
    analyzeServer r (.text raw) = analysisOf (jvalToJS v) := by
  simp [analyzeServer, primaryAnalysis, h]

/-- Witness for C5-amended on the BANANA-severity response. -/
theorem malformed_response_amended_witness :
    extractJSON "\x7b\"severity\": \"BANANA\"\x7d" =
      some (.jobj [("severity", .jstr "BANANA")]) ∧
    analyzeServer ⟨1, 2, 0, "Home"⟩ (.text "\x7b\"severity\": \"BANANA\"\x7d") =
      analysisOf (jvalToJS (.jobj [("severity", .jstr "BANANA")])) := by
  have hv : extractJSON "\x7b\"severity\": \"BANANA\"\x7d" =
      some (.jobj [("severity", .jstr "BANANA")]) := rfl
  exact ⟨hv, malformed_response_amended ⟨1, 2, 0, "Home"⟩ _ _ hv⟩

/-- Once validation fails, both handlers answer with exactly that client
error and never attempt a send — the reasoning call and the SMS outcome are
irrelevant. -/
theorem handlers_client_error (p : Payload) (msg : String)
    (h : validate p = .error msg) (ai : AIResult) (sms : SmsOutcome) :
    handleAnalyzeServer p ai sms = (.clientError msg, false) ∧
    handleAnalyzePart0 p ai sms = (.clientError msg, false) := by
  constructor
  · simp [handleAnalyzeServer, h]
  · simp [handleAnalyzePart0, h]

/-- A payload whose sensor fields all survive the `undefined` check but
where some coercion is not finite is rejected with the numeric error. -/
theorem validate_error_of_nonfinite (pi2 ps2 pt2 : JSValue) (loc : String)
    (h1 : pi2.isUndefined = false) (h2 : ps2.isUndefined = false)
    (h3 : pt2.isUndefined = false) (h4 : (jsTrim loc).isEmpty = false)
    (h : (toNumber pi2).isFinite = false ∨ (toNumber ps2).isFinite = false ∨
         (toNumber pt2).isFinite = false) :
    validate ⟨pi2, ps2, pt2, .str loc⟩ = .error "Sensor values must be numbers" := by
  simp only [validate, h1, h2, h3, h4, Bool.or_self, Bool.or_false,
    Bool.false_or, if_neg, Bool.false_eq_true, not_false_eq_true, ite_false]
  cases hni : toNumber pi2 <;> cases hns : toNumber ps2 <;>
    cases hnt : toNumber pt2 <;> simp_all [JSNum.isFinite]

/-- C7.  Every payload with a missing sensor field, a sensor field that is
not finite after `Number()` coercion (NaN or ±Infinity, including
non-numeric text), or a location that is missing, not a string, or empty
after trimming, is rejected by validation with a 400 client error, and
neither handler ever reaches classification (the response is the same for
every reasoning and SMS outcome). -/
theorem validator_rejects (p : Payload)
    (h : p.impact.isUndefined = true ∨ p.speed.isUndefined = true ∨
         p.tilt.isUndefined = true ∨ locationOk p.location = false ∨
         (toNumber p.impact).isFinite = false ∨
         (toNumber p.speed).isFinite = false ∨
         (toNumber p.tilt).isFinite = false) :
    ∃ msg, validate p = .error msg ∧
      ∀ ai sms, handleAnalyzeServer p ai sms = (.clientError msg, false) ∧
                handleAnalyzePart0 p ai sms = (.clientError msg, false) := by
  obtain ⟨pi2, ps2, pt2, pl⟩ := p
  have hval : ∃ msg, validate ⟨pi2, ps2, pt2, pl⟩ = .error msg := by
    cases pl with
    | str loc =>
      by_cases hC : (pi2.isUndefined || ps2.isUndefined || pt2.isUndefined ||
          (jsTrim loc).isEmpty) = true
      · exact ⟨"Invalid sensor data", by simp [validate, hC]⟩
      · simp only [Bool.or_eq_true, not_or, Bool.not_eq_true] at hC
        obtain ⟨⟨⟨hc1, hc2⟩, hc3⟩, hc4⟩ := hC
        refine ⟨"Sensor values must be numbers",
          validate_error_of_nonfinite pi2 ps2 pt2 loc hc1 hc2 hc3 hc4 ?_⟩
        rcases h with h | h | h | h | h | h | h
        · rw [hc1] at h; cases h
        · rw [hc2] at h; cases h
        · rw [hc3] at h; cases h
        · simp [locationOk, hc4] at h
        · exact Or.inl h
        · exact Or.inr (Or.inl h)
        · exact Or.inr (Or.inr h)
    | undefined => exact ⟨"Invalid sensor data", rfl⟩
    | null => exact ⟨"Invalid sensor data", rfl⟩
    | bool b => exact ⟨"Invalid sensor data", rfl⟩
    | num n => exact ⟨"Invalid sensor data", rfl⟩
    | arr xs => exact ⟨"Invalid sensor data", rfl⟩
    | obj fs => exact ⟨"Invalid sensor data", rfl⟩
  obtain ⟨msg, hmsg⟩ := hval
  exact ⟨msg, hmsg, fun ai sms => handlers_client_error _ msg hmsg ai sms⟩

/-- Witness for C7: the payload `impact = "abc"` (NaN after coercion) with
otherwise well-formed fields is rejected and classification is never
reached. -/
theorem validator_rejects_witness :
    ((JSValue.str "abc").isUndefined = true ∨ (JSValue.num (.fin 1)).isUndefined = true ∨
     (JSValue.num (.fin 1)).isUndefined = true ∨ locationOk (.str "x") = false ∨
     (toNumber (.str "abc")).isFinite = false ∨
     (toNumber (.num (.fin 1))).isFinite = false ∨
     (toNumber (.num (.fin 1))).isFinite = false) ∧
    (∃ msg, validate ⟨.str "abc", .num (.fin 1), .num (.fin 1), .str "x"⟩ =
        .error msg ∧
      ∀ ai sms,
        handleAnalyzeServer ⟨.str "abc", .num (.fin 1), .num (.fin 1), .str "x"⟩
          ai sms = (.clientError msg, false) ∧
        handleAnalyzePart0 ⟨.str "abc", .num (.fin 1), .num (.fin 1), .str "x"⟩
          ai sms = (.clientError msg, false)) := by
  have hh : (JSValue.str "abc").isUndefined = true ∨
      (JSValue.num (.fin 1)).isUndefined = true ∨
      (JSValue.num (.fin 1)).isUndefined = true ∨ locationOk (.str "x") = false ∨
      (toNumber (.str "abc")).isFinite = false ∨
      (toNumber (.num (.fin 1))).isFinite = false ∨
      (toNumber (.num (.fin 1))).isFinite = false := by decide
  exact ⟨hh, validator_rejects _ hh⟩

/-- C9 counterexample.  A payload with `impact = -5` and `speed = -10`
passes validation unchanged and reaches the decision engine — validation
never checks the sign of the sensor values. -/
theorem negative_reading_counterexample :
    validate ⟨.num (.fin (-5)), .num (.fin (-10)), .num (.fin 0), .str "x"⟩ =
      .ok ⟨-5, -10, 0, "x"⟩ ∧
    (handleAnalyzeServer ⟨.num (.fin (-5)), .num (.fin (-10)), .num (.fin 0),
        .str "x"⟩ .failure .sent).1 =
      .ok (analyzeServer ⟨-5, -10, 0, "x"⟩ .failure) ∧
    (-5 : ℚ) < 0 := by
  refine ⟨rfl, rfl, by norm_num⟩

/-- C9 amended.  Validation enforces only finiteness (and a usable
location), not the data model's non-negativity: every payload whose three
sensor fields are finite numbers — negative ones included — and whose
location is a string that is non-empty after trimming passes validation
and reaches the decision engine with the signed values. -/
theorem negative_reading_amended (qi qs qt : ℚ) (loc : String)
    (h : (jsTrim loc).isEmpty = false) :
    validate ⟨.num (.fin qi), .num (.fin qs), .num (.fin qt), .str loc⟩ =
      .ok ⟨qi, qs, qt, sanitizeString loc⟩ :=
  validate_str_ok _ _ _ _ qi qs qt rfl rfl rfl h rfl rfl rfl

/-- Witness for C9-amended at negative impact and speed. -/
theorem negative_reading_amended_witness :
    (jsTrim "x").isEmpty = false ∧
    validate ⟨.num (.fin (-5)), .num (.fin (-10)), .num (.fin 0), .str "x"⟩ =
      .ok ⟨-5, -10, 0, sanitizeString "x"⟩ := by
  have hh : (jsTrim "x").isEmpty = false := rfl
  exact ⟨hh, negative_reading_amended (-5) (-10) 0 "x" hh⟩

/-- C10.  The three sensor fields are coerced with `Number()` before the
finiteness check: every payload whose sensor fields are present and coerce
to finite numbers — numeric strings, booleans, the empty array — passes
validation, and classification runs on the coerced numeric values. -/
theorem coercion_passes_validation (p : Payload) (qi qs qt : ℚ) (loc : String)
    (ai : AIResult) (sms : SmsOutcome)
    (h1 : p.impact.isUndefined = false) (h2 : p.speed.isUndefined = false)
    (h3 : p.tilt.isUndefined = false)
    (h4 : p.location = .str loc) (h5 : (jsTrim loc).isEmpty = false)
    (h6 : toNumber p.impact = .fin qi) (h7 : toNumber p.speed = .fin qs)
    (h8 : toNumber p.tilt = .fin qt) :
    validate p = .ok ⟨qi, qs, qt, sanitizeString loc⟩ ∧
    (handleAnalyzeServer p ai sms).1 =
      .ok (analyzeServer ⟨qi, qs, qt, sanitizeString loc⟩ ai) := by
  obtain ⟨pi2, ps2, pt2, pl⟩ := p
  cases h4
  have hv := validate_str_ok pi2 ps2 pt2 loc qi qs qt h1 h2 h3 h5 h6 h7 h8
  exact ⟨hv, by rw [handleAnalyzeServer_ok _ _ ai sms hv]⟩

/-- Coercion fact `Number("5") = 5`: the numeric string coerces to five. -/
theorem toNumber_str_five : toNumber (.str "5") = .fin 5 := by
  show JSNum.fin ((digitsToNat ['5'] : ℚ) * (10 : ℚ) ^ (0 : Int)) = JSNum.fin 5
  norm_num [digitsToNat, (show '5'.toNat = 53 from rfl)]

/-- Witness for C10: `impact = "5"` (string), `speed = true` (boolean),
`tilt = []` (empty array) coerce to `5`, `1`, `0` and are classified with
those values. -/
theorem coercion_passes_validation_witness :
    (JSValue.str "5").isUndefined = false ∧ (JSValue.bool true).isUndefined = false ∧
    (JSValue.arr []).isUndefined = false ∧ (jsTrim "Home").isEmpty = false ∧
    toNumber (.str "5") = .fin 5 ∧ toNumber (.bool true) = .fin 1 ∧
    toNumber (.arr []) = .fin 0 ∧
    (validate ⟨.str "5", .bool true, .arr [], .str "Home"⟩ =
        .ok ⟨5, 1, 0, sanitizeString "Home"⟩ ∧
      (handleAnalyzeServer ⟨.str "5", .bool true, .arr [], .str "Home"⟩
          .failure .sent).1 =
        .ok (analyzeServer ⟨5, 1, 0, sanitizeString "Home"⟩ .failure)) := by
  refine ⟨rfl, rfl, rfl, rfl, toNumber_str_five, rfl, rfl, ?_⟩
  exact coercion_passes_validation ⟨.str "5", .bool true, .arr [], .str "Home"⟩
    5 1 0 "Home" .failure .sent rfl rfl rfl rfl rfl toNumber_str_five rfl rfl
